import Mathlib

/-!
Shallow embedding of the identifier types of `larcoreobj`
(`larcoreobj/SimpleTypesAndConstants/geo_types.h`, `geo_types.cxx`,
`readout_types.h`).

C++ `unsigned int` values are modelled as `Nat`; the only arithmetic
performed on them (`TPCID::next`) is made explicit with `% 2^32`.
The sentinel `InvalidID = std::numeric_limits<...>::max()` is `2^32 - 1`
for the `unsigned int` index types and `2^16 - 1` for the
`unsigned short` one (`readout::TPCsetID::TPCsetID_t`).
C++ class inheritance (`struct TPCID : public CryostatID`) is modelled by
composition: the derived struct holds its parent subobject as a field.
-/

namespace geo

/-- `std::numeric_limits<unsigned int>::max()`. -/
def uintMax : Nat := 2 ^ 32 - 1

/-- `std::numeric_limits<unsigned short>::max()`. -/
def ushortMax : Nat := 2 ^ 16 - 1

/-- `geo::CryostatID`: validity flag plus cryostat index. -/
structure CryostatID where
  isValid : Bool
  Cryostat : Nat

/-- `geo::CryostatID::InvalidID`. -/
def CryostatID.InvalidID : Nat := uintMax

/-- `geo::CryostatID::getInvalidID()`. -/
def CryostatID.getInvalidID : Nat := CryostatID.InvalidID

/-- Default constructor `CryostatID()`: `isValid = false`, `Cryostat = InvalidID`. -/
def CryostatID.invalid : CryostatID := ⟨false, CryostatID.InvalidID⟩

/-- Constructor `CryostatID(CryostatID_t c)`: valid ID of cryostat with index `c`. -/
def CryostatID.ofIndex (c : Nat) : CryostatID := ⟨true, c⟩

/-- Constructor `CryostatID(CryostatID_t c, bool valid)`. -/
def CryostatID.ofIndexValid (c : Nat) (valid : Bool) : CryostatID := ⟨valid, c⟩

/-- `CryostatID::setValidity(bool)`. -/
def CryostatID.setValidity (a : CryostatID) (valid : Bool) : CryostatID :=
  ⟨valid, a.Cryostat⟩

/-- `CryostatID::deepestIndex()`. -/
def CryostatID.deepestIndex (a : CryostatID) : Nat := a.Cryostat

/-- `getIndex<0>()` on a `CryostatID` (its own level). -/
def CryostatID.getIndex0 (a : CryostatID) : Nat := a.deepestIndex

/-- `operator==(CryostatID, CryostatID)`: `a.Cryostat == b.Cryostat`. -/
def CryostatID.eq (a b : CryostatID) : Bool := a.Cryostat == b.Cryostat

/-- `operator!=(CryostatID, CryostatID)`: `!(a == b)`. -/
def CryostatID.ne (a b : CryostatID) : Bool := !(CryostatID.eq a b)

/-- `operator<(CryostatID, CryostatID)`: `a.Cryostat < b.Cryostat`. -/
def CryostatID.lt (a b : CryostatID) : Bool := decide (a.Cryostat < b.Cryostat)

/-- `operator<<(std::ostream&, CryostatID const&)`: prints `C:<index>`. -/
def CryostatID.toString (a : CryostatID) : String := "C:" ++ Nat.repr a.Cryostat

/-- `geo::OpDetID`: a `CryostatID` subobject plus the optical-detector index. -/
structure OpDetID where
  cryostat : CryostatID
  OpDet : Nat

/-- `geo::OpDetID::InvalidID`. -/
def OpDetID.InvalidID : Nat := uintMax

/-- `geo::OpDetID::getInvalidID()`. -/
def OpDetID.getInvalidID : Nat := OpDetID.InvalidID

/-- Default constructor `OpDetID()`. -/
def OpDetID.invalid : OpDetID := ⟨CryostatID.invalid, OpDetID.InvalidID⟩

/-- Constructor `OpDetID(CryostatID const& cryoid, OpDetID_t o)`:
copies the parent subobject. -/
def OpDetID.ofParent (cryoid : CryostatID) (o : Nat) : OpDetID := ⟨cryoid, o⟩

/-- Constructor `OpDetID(CryostatID_t c, OpDetID_t o)`: delegates to
`CryostatID(c)`, which is valid. -/
def OpDetID.ofIndices (c o : Nat) : OpDetID := ⟨CryostatID.ofIndex c, o⟩

/-- Inherited `isValid` data member. -/
def OpDetID.isValid (a : OpDetID) : Bool := a.cryostat.isValid

/-- `OpDetID::parentID()`. -/
def OpDetID.parentID (a : OpDetID) : CryostatID := a.cryostat

/-- Inherited `setValidity` (mutates the root subobject's flag). -/
def OpDetID.setValidity (a : OpDetID) (valid : Bool) : OpDetID :=
  ⟨a.cryostat.setValidity valid, a.OpDet⟩

/-- `OpDetID::deepestIndex()`. -/
def OpDetID.deepestIndex (a : OpDetID) : Nat := a.OpDet

/-- `getIndex<0>()` resolved through the parent chain. -/
def OpDetID.getIndex0 (a : OpDetID) : Nat := a.parentID.getIndex0

/-- `getIndex<1>()` (own level). -/
def OpDetID.getIndex1 (a : OpDetID) : Nat := a.deepestIndex

/-- `operator==` via `std::tie(parentID, deepestIndex)`. -/
def OpDetID.eq (a b : OpDetID) : Bool :=
  CryostatID.eq a.parentID b.parentID && (a.deepestIndex == b.deepestIndex)

/-- `operator!=`: `!(a == b)`. -/
def OpDetID.ne (a b : OpDetID) : Bool := !(OpDetID.eq a b)

/-- `operator<` via `std::tie`: lexicographic tuple comparison
`p(a) < p(b) || (!(p(b) < p(a)) && local(a) < local(b))`. -/
def OpDetID.lt (a b : OpDetID) : Bool :=
  CryostatID.lt a.parentID b.parentID ||
    (!(CryostatID.lt b.parentID a.parentID) && decide (a.deepestIndex < b.deepestIndex))

/-- `operator<<`: parent rendering then `" O:<index>"`. -/
def OpDetID.toString (a : OpDetID) : String :=
  a.parentID.toString ++ " O:" ++ Nat.repr a.OpDet

/-- `geo::TPCID`: a `CryostatID` subobject plus the TPC index. -/
structure TPCID where
  cryostat : CryostatID
  TPC : Nat

/-- `geo::TPCID::InvalidID`. -/
def TPCID.InvalidID : Nat := uintMax

/-- `geo::TPCID::getInvalidID()`. -/
def TPCID.getInvalidID : Nat := TPCID.InvalidID

/-- Default constructor `TPCID()`. -/
def TPCID.invalid : TPCID := ⟨CryostatID.invalid, TPCID.InvalidID⟩

/-- Constructor `TPCID(CryostatID const& cryoid, TPCID_t t)`. -/
def TPCID.ofParent (cryoid : CryostatID) (t : Nat) : TPCID := ⟨cryoid, t⟩

/-- Constructor `TPCID(CryostatID_t c, TPCID_t t)`: delegates to `CryostatID(c)`. -/
def TPCID.ofIndices (c t : Nat) : TPCID := ⟨CryostatID.ofIndex c, t⟩

/-- Inherited `isValid` data member. -/
def TPCID.isValid (a : TPCID) : Bool := a.cryostat.isValid

/-- `TPCID::parentID()`. -/
def TPCID.parentID (a : TPCID) : CryostatID := a.cryostat

/-- Inherited `setValidity`. -/
def TPCID.setValidity (a : TPCID) (valid : Bool) : TPCID :=
  ⟨a.cryostat.setValidity valid, a.TPC⟩

/-- `TPCID::deepestIndex()`. -/
def TPCID.deepestIndex (a : TPCID) : Nat := a.TPC

/-- `getIndex<0>()`. -/
def TPCID.getIndex0 (a : TPCID) : Nat := a.parentID.getIndex0

/-- `getIndex<1>()`. -/
def TPCID.getIndex1 (a : TPCID) : Nat := a.deepestIndex

/-- `TPCID::next()`: `{Cryostat, TPC + 1}`, i.e. the flat constructor on the
same cryostat index and the incremented TPC index (`unsigned int` wraparound
made explicit). -/
def TPCID.next (a : TPCID) : TPCID :=
  TPCID.ofIndices a.cryostat.Cryostat ((a.TPC + 1) % 2 ^ 32)

/-- `operator==` via `std::tie`. -/
def TPCID.eq (a b : TPCID) : Bool :=
  CryostatID.eq a.parentID b.parentID && (a.deepestIndex == b.deepestIndex)

/-- `operator!=`: `!(a == b)`. -/
def TPCID.ne (a b : TPCID) : Bool := !(TPCID.eq a b)

/-- `operator<` via `std::tie`. -/
def TPCID.lt (a b : TPCID) : Bool :=
  CryostatID.lt a.parentID b.parentID ||
    (!(CryostatID.lt b.parentID a.parentID) && decide (a.deepestIndex < b.deepestIndex))

/-- `operator<<`: parent rendering then `" T:<index>"`. -/
def TPCID.toString (a : TPCID) : String :=
  a.parentID.toString ++ " T:" ++ Nat.repr a.TPC

/-- `geo::PlaneID`: a `TPCID` subobject plus the plane index. -/
structure PlaneID where
  tpc : TPCID
  Plane : Nat

/-- `geo::PlaneID::InvalidID`. -/
def PlaneID.InvalidID : Nat := uintMax

/-- `geo::PlaneID::getInvalidID()`. -/
def PlaneID.getInvalidID : Nat := PlaneID.InvalidID

/-- Default constructor `PlaneID()`. -/
def PlaneID.invalid : PlaneID := ⟨TPCID.invalid, PlaneID.InvalidID⟩

/-- Constructor `PlaneID(TPCID const& tpcid, PlaneID_t p)`. -/
def PlaneID.ofParent (tpcid : TPCID) (p : Nat) : PlaneID := ⟨tpcid, p⟩

/-- Constructor `PlaneID(CryostatID_t c, TPCID_t t, PlaneID_t p)`:
delegates to `TPCID(c, t)`. -/
def PlaneID.ofIndices (c t p : Nat) : PlaneID := ⟨TPCID.ofIndices c t, p⟩

/-- Inherited `isValid` data member. -/
def PlaneID.isValid (a : PlaneID) : Bool := a.tpc.isValid

/-- `PlaneID::parentID()`. -/
def PlaneID.parentID (a : PlaneID) : TPCID := a.tpc

/-- Inherited `setValidity`. -/
def PlaneID.setValidity (a : PlaneID) (valid : Bool) : PlaneID :=
  ⟨a.tpc.setValidity valid, a.Plane⟩

/-- `PlaneID::deepestIndex()`. -/
def PlaneID.deepestIndex (a : PlaneID) : Nat := a.Plane

/-- `getIndex<0>()`. -/
def PlaneID.getIndex0 (a : PlaneID) : Nat := a.parentID.getIndex0

/-- `getIndex<1>()`. -/
def PlaneID.getIndex1 (a : PlaneID) : Nat := a.parentID.getIndex1

/-- `getIndex<2>()`. -/
def PlaneID.getIndex2 (a : PlaneID) : Nat := a.deepestIndex

/-- `operator==` via `std::tie`. -/
def PlaneID.eq (a b : PlaneID) : Bool :=
  TPCID.eq a.parentID b.parentID && (a.deepestIndex == b.deepestIndex)

/-- `operator!=`: `!(a == b)`. -/
def PlaneID.ne (a b : PlaneID) : Bool := !(PlaneID.eq a b)

/-- `operator<` via `std::tie`. -/
def PlaneID.lt (a b : PlaneID) : Bool :=
  TPCID.lt a.parentID b.parentID ||
    (!(TPCID.lt b.parentID a.parentID) && decide (a.deepestIndex < b.deepestIndex))

/-- `operator<<`: parent rendering then `" P:<index>"`. -/
def PlaneID.toString (a : PlaneID) : String :=
  a.parentID.toString ++ " P:" ++ Nat.repr a.Plane

/-- `geo::WireID`: a `PlaneID` subobject plus the wire index. -/
structure WireID where
  plane : PlaneID
  Wire : Nat

/-- `geo::WireID::InvalidID`. -/
def WireID.InvalidID : Nat := uintMax

/-- `geo::WireID::getInvalidID()`. -/
def WireID.getInvalidID : Nat := WireID.InvalidID

/-- Default constructor `WireID()`. -/
def WireID.invalid : WireID := ⟨PlaneID.invalid, WireID.InvalidID⟩

/-- Constructor `WireID(PlaneID const& planeid, WireID_t w)`. -/
def WireID.ofParent (planeid : PlaneID) (w : Nat) : WireID := ⟨planeid, w⟩

/-- Constructor `WireID(CryostatID_t c, TPCID_t t, PlaneID_t p, WireID_t w)`:
delegates to `PlaneID(c, t, p)`. -/
def WireID.ofIndices (c t p w : Nat) : WireID := ⟨PlaneID.ofIndices c t p, w⟩

/-- Inherited `isValid` data member. -/
def WireID.isValid (a : WireID) : Bool := a.plane.isValid

/-- `WireID::parentID()`. -/
def WireID.parentID (a : WireID) : PlaneID := a.plane

/-- Inherited `setValidity`. -/
def WireID.setValidity (a : WireID) (valid : Bool) : WireID :=
  ⟨a.plane.setValidity valid, a.Wire⟩

/-- `WireID::deepestIndex()`. -/
def WireID.deepestIndex (a : WireID) : Nat := a.Wire

/-- `getIndex<0>()`. -/
def WireID.getIndex0 (a : WireID) : Nat := a.parentID.getIndex0

/-- `getIndex<1>()`. -/
def WireID.getIndex1 (a : WireID) : Nat := a.parentID.getIndex1

/-- `getIndex<2>()`. -/
def WireID.getIndex2 (a : WireID) : Nat := a.parentID.getIndex2

/-- `getIndex<3>()`. -/
def WireID.getIndex3 (a : WireID) : Nat := a.deepestIndex

/-- `operator==` via `std::tie`. -/
def WireID.eq (a b : WireID) : Bool :=
  PlaneID.eq a.parentID b.parentID && (a.deepestIndex == b.deepestIndex)

/-- `operator!=`: `!(a == b)`. -/
def WireID.ne (a b : WireID) : Bool := !(WireID.eq a b)

/-- `operator<` via `std::tie`. -/
def WireID.lt (a b : WireID) : Bool :=
  PlaneID.lt a.parentID b.parentID ||
    (!(PlaneID.lt b.parentID a.parentID) && decide (a.deepestIndex < b.deepestIndex))

/-- `operator<<`: parent rendering then `" W:<index>"`. -/
def WireID.toString (a : WireID) : String :=
  a.parentID.toString ++ " W:" ++ Nat.repr a.Wire

end geo

namespace readout

/-- `readout::TPCsetID`: a `geo::CryostatID` subobject plus the TPC-set index
(of C++ type `unsigned short`). -/
structure TPCsetID where
  cryostat : geo.CryostatID
  TPCset : Nat

/-- `readout::TPCsetID::InvalidID` (`unsigned short` maximum). -/
def TPCsetID.InvalidID : Nat := geo.ushortMax

/-- `readout::TPCsetID::getInvalidID()`. -/
def TPCsetID.getInvalidID : Nat := TPCsetID.InvalidID

/-- Default constructor `TPCsetID()`. -/
def TPCsetID.invalid : TPCsetID := ⟨geo.CryostatID.invalid, TPCsetID.InvalidID⟩

/-- Constructor `TPCsetID(CryostatID const& cryoid, TPCsetID_t s)`. -/
def TPCsetID.ofParent (cryoid : geo.CryostatID) (s : Nat) : TPCsetID := ⟨cryoid, s⟩

/-- Constructor `TPCsetID(CryostatID_t c, TPCsetID_t s)`: delegates to
`CryostatID(c)`. -/
def TPCsetID.ofIndices (c s : Nat) : TPCsetID := ⟨geo.CryostatID.ofIndex c, s⟩

/-- Inherited `isValid` data member. -/
def TPCsetID.isValid (a : TPCsetID) : Bool := a.cryostat.isValid

/-- `TPCsetID::parentID()`. -/
def TPCsetID.parentID (a : TPCsetID) : geo.CryostatID := a.cryostat

/-- Inherited `setValidity`. -/
def TPCsetID.setValidity (a : TPCsetID) (valid : Bool) : TPCsetID :=
  ⟨a.cryostat.setValidity valid, a.TPCset⟩

/-- `TPCsetID::deepestIndex()`. -/
def TPCsetID.deepestIndex (a : TPCsetID) : Nat := a.TPCset

/-- `getIndex<0>()`. -/
def TPCsetID.getIndex0 (a : TPCsetID) : Nat := a.parentID.getIndex0

/-- `getIndex<1>()`. -/
def TPCsetID.getIndex1 (a : TPCsetID) : Nat := a.deepestIndex

/-- `operator==` via `std::tie`. -/
def TPCsetID.eq (a b : TPCsetID) : Bool :=
  geo.CryostatID.eq a.parentID b.parentID && (a.deepestIndex == b.deepestIndex)

/-- `operator!=`: `!(a == b)`. -/
def TPCsetID.ne (a b : TPCsetID) : Bool := !(TPCsetID.eq a b)

/-- `operator<` via `std::tie`. -/
def TPCsetID.lt (a b : TPCsetID) : Bool :=
  geo.CryostatID.lt a.parentID b.parentID ||
    (!(geo.CryostatID.lt b.parentID a.parentID) && decide (a.deepestIndex < b.deepestIndex))

/-- `readout::operator<<`: parent rendering then `" S:<index>"`. -/
def TPCsetID.toString (a : TPCsetID) : String :=
  a.parentID.toString ++ " S:" ++ Nat.repr a.TPCset

/-- `readout::ROPID`: a `TPCsetID` subobject plus the readout-plane index. -/
structure ROPID where
  tpcset : TPCsetID
  ROP : Nat

/-- `readout::ROPID::InvalidID`. -/
def ROPID.InvalidID : Nat := geo.uintMax

/-- `readout::ROPID::getInvalidID()`. -/
def ROPID.getInvalidID : Nat := ROPID.InvalidID

/-- Default constructor `ROPID()`. -/
def ROPID.invalid : ROPID := ⟨TPCsetID.invalid, ROPID.InvalidID⟩

/-- Constructor `ROPID(TPCsetID const& tpcsetid, ROPID_t r)`. -/
def ROPID.ofParent (tpcsetid : TPCsetID) (r : Nat) : ROPID := ⟨tpcsetid, r⟩

/-- Constructor `ROPID(CryostatID_t c, TPCsetID_t s, ROPID_t r)`: delegates to
`TPCsetID(c, s)`. -/
def ROPID.ofIndices (c s r : Nat) : ROPID := ⟨TPCsetID.ofIndices c s, r⟩

/-- Inherited `isValid` data member. -/
def ROPID.isValid (a : ROPID) : Bool := a.tpcset.isValid

/-- `ROPID::parentID()`. -/
def ROPID.parentID (a : ROPID) : TPCsetID := a.tpcset

/-- Inherited `setValidity`. -/
def ROPID.setValidity (a : ROPID) (valid : Bool) : ROPID :=
  ⟨a.tpcset.setValidity valid, a.ROP⟩

/-- `ROPID::deepestIndex()`. -/
def ROPID.deepestIndex (a : ROPID) : Nat := a.ROP

/-- `getIndex<0>()`. -/
def ROPID.getIndex0 (a : ROPID) : Nat := a.parentID.getIndex0

/-- `getIndex<1>()`. -/
def ROPID.getIndex1 (a : ROPID) : Nat := a.parentID.getIndex1

/-- `getIndex<2>()`. -/
def ROPID.getIndex2 (a : ROPID) : Nat := a.deepestIndex

/-- `operator==` via `std::tie`. -/
def ROPID.eq (a b : ROPID) : Bool :=
  TPCsetID.eq a.parentID b.parentID && (a.deepestIndex == b.deepestIndex)

/-- `operator!=`: `!(a == b)`. -/
def ROPID.ne (a b : ROPID) : Bool := !(ROPID.eq a b)

/-- `operator<` via `std::tie`. -/
def ROPID.lt (a b : ROPID) : Bool :=
  TPCsetID.lt a.parentID b.parentID ||
    (!(TPCsetID.lt b.parentID a.parentID) && decide (a.deepestIndex < b.deepestIndex))

/-- `readout::operator<<`: parent rendering then `" R:<index>"`. -/
def ROPID.toString (a : ROPID) : String :=
  a.parentID.toString ++ " R:" ++ Nat.repr a.ROP

end readout

namespace geo

/-- `geo::WireIDIntersection`: intersection point of two wires.  The C++
`double` coordinates are modelled as rationals; the ordering only takes
absolute values and compares, which is exact on the represented values. -/
structure WireIDIntersection where
  y : ℚ
  z : ℚ
  TPC : Nat

/-- `WireIDIntersection::operator<`: `std::abs(y) > std::abs(other.y)`. -/
def WireIDIntersection.lt (a b : WireIDIntersection) : Bool :=
  decide (|b.y| < |a.y|)

/-- `geo::kInduction` (underlying enumerator value). -/
def kInduction : Int := 0

/-- `geo::kCollection` (underlying enumerator value). -/
def kCollection : Int := 1

/-- `geo::kMysteryType` (underlying enumerator value). -/
def kMysteryType : Int := 2

/-- `geo::SignalTypeName`: the switch over the three enumerators; any other
underlying value falls through to `throw std::logic_error(...)`, modelled as
`Except.error` carrying the same message text
(`std::to_string(static_cast<int>(sigType))` renders the offending value). -/
def SignalTypeName (sigType : Int) : Except String String :=
  if sigType = kInduction then Except.ok "induction"
  else if sigType = kCollection then Except.ok "collection"
  else if sigType = kMysteryType then Except.ok "unknown"
  else Except.error
    ("geo::SignalTypeName(): unexpected signal type #" ++ Int.repr sigType)

end geo

/-- Exactly one of three booleans is set: the shape of the trichotomy of the
comparison operators. -/
def exactlyOne (x y z : Bool) : Bool :=
  (x && !y && !z) || (!x && y && !z) || (!x && !y && z)

theorem exactlyOne_natCmp (m n : Nat) :
    exactlyOne (decide (m < n)) (m == n) (decide (n < m)) = true := by
  simp only [exactlyOne, Bool.or_eq_true, Bool.and_eq_true, Bool.not_eq_true',
    decide_eq_true_eq, decide_eq_false_iff_not, beq_iff_eq, beq_eq_false_iff_ne, ne_eq]
  omega

theorem exactlyOne_comp (pab pe pba : Bool) (m n : Nat)
    (h : exactlyOne pab pe pba = true) :
    exactlyOne (pab || (!pba && decide (m < n))) (pe && (m == n))
      (pba || (!pab && decide (n < m))) = true := by
  have hmn := exactlyOne_natCmp m n
  cases pab <;> cases pe <;> cases pba <;> simp_all [exactlyOne]

theorem lt_lex_iff (pab pe pba : Bool) (m n : Nat)
    (h : exactlyOne pab pe pba = true) :
    (pab || (!pba && decide (m < n))) = true ↔ (pab = true ∨ (pe = true ∧ m < n)) := by
  cases pab <;> cases pe <;> cases pba <;> simp_all [exactlyOne]

theorem cryostatID_trichotomy (a b : geo.CryostatID) :
    exactlyOne (geo.CryostatID.lt a b) (geo.CryostatID.eq a b) (geo.CryostatID.lt b a) = true :=
  exactlyOne_natCmp a.Cryostat b.Cryostat

theorem opDetID_trichotomy (a b : geo.OpDetID) :
    exactlyOne (geo.OpDetID.lt a b) (geo.OpDetID.eq a b) (geo.OpDetID.lt b a) = true :=
  exactlyOne_comp _ _ _ _ _ (cryostatID_trichotomy a.parentID b.parentID)

theorem tpcID_trichotomy (a b : geo.TPCID) :
    exactlyOne (geo.TPCID.lt a b) (geo.TPCID.eq a b) (geo.TPCID.lt b a) = true :=
  exactlyOne_comp _ _ _ _ _ (cryostatID_trichotomy a.parentID b.parentID)

theorem planeID_trichotomy (a b : geo.PlaneID) :
    exactlyOne (geo.PlaneID.lt a b) (geo.PlaneID.eq a b) (geo.PlaneID.lt b a) = true :=
  exactlyOne_comp _ _ _ _ _ (tpcID_trichotomy a.parentID b.parentID)

theorem wireID_trichotomy (a b : geo.WireID) :
    exactlyOne (geo.WireID.lt a b) (geo.WireID.eq a b) (geo.WireID.lt b a) = true :=
  exactlyOne_comp _ _ _ _ _ (planeID_trichotomy a.parentID b.parentID)

theorem tpcsetID_trichotomy (a b : readout.TPCsetID) :
    exactlyOne (readout.TPCsetID.lt a b) (readout.TPCsetID.eq a b) (readout.TPCsetID.lt b a) = true :=
  exactlyOne_comp _ _ _ _ _ (cryostatID_trichotomy a.parentID b.parentID)

theorem ropID_trichotomy (a b : readout.ROPID) :
    exactlyOne (readout.ROPID.lt a b) (readout.ROPID.eq a b) (readout.ROPID.lt b a) = true :=
  exactlyOne_comp _ _ _ _ _ (tpcsetID_trichotomy a.parentID b.parentID)

/-- C1: for each non-root identifier type (OpDetID, TPCID, PlaneID, WireID,
TPCsetID, ROPID), `a < b` holds iff the parent part is less, or the parent
parts compare equal and the deepest (local) index is less; for the root
`CryostatID`, `a < b` holds iff `a.Cryostat < b.Cryostat`.  This is
lexicographic ordering on the index tuple. -/
theorem C1_lt_is_lexicographic :
    (∀ a b : geo.CryostatID, geo.CryostatID.lt a b = true ↔ a.Cryostat < b.Cryostat) ∧
    (∀ a b : geo.OpDetID, geo.OpDetID.lt a b = true ↔
      (geo.CryostatID.lt a.parentID b.parentID = true ∨
        (geo.CryostatID.eq a.parentID b.parentID = true ∧ a.deepestIndex < b.deepestIndex))) ∧
    (∀ a b : geo.TPCID, geo.TPCID.lt a b = true ↔
      (geo.CryostatID.lt a.parentID b.parentID = true ∨
        (geo.CryostatID.eq a.parentID b.parentID = true ∧ a.deepestIndex < b.deepestIndex))) ∧
    (∀ a b : geo.PlaneID, geo.PlaneID.lt a b = true ↔
      (geo.TPCID.lt a.parentID b.parentID = true ∨
        (geo.TPCID.eq a.parentID b.parentID = true ∧ a.deepestIndex < b.deepestIndex))) ∧
    (∀ a b : geo.WireID, geo.WireID.lt a b = true ↔
      (geo.PlaneID.lt a.parentID b.parentID = true ∨
        (geo.PlaneID.eq a.parentID b.parentID = true ∧ a.deepestIndex < b.deepestIndex))) ∧
    (∀ a b : readout.TPCsetID, readout.TPCsetID.lt a b = true ↔
      (geo.CryostatID.lt a.parentID b.parentID = true ∨
        (geo.CryostatID.eq a.parentID b.parentID = true ∧ a.deepestIndex < b.deepestIndex))) ∧
    (∀ a b : readout.ROPID, readout.ROPID.lt a b = true ↔
      (readout.TPCsetID.lt a.parentID b.parentID = true ∨
        (readout.TPCsetID.eq a.parentID b.parentID = true ∧ a.deepestIndex < b.deepestIndex))) := by
  refine ⟨?_, ?_, ?_, ?_, ?_, ?_, ?_⟩
  · intro a b; simp [geo.CryostatID.lt]
  · intro a b; exact lt_lex_iff _ _ _ _ _ (cryostatID_trichotomy a.parentID b.parentID)
  · intro a b; exact lt_lex_iff _ _ _ _ _ (cryostatID_trichotomy a.parentID b.parentID)
  · intro a b; exact lt_lex_iff _ _ _ _ _ (tpcID_trichotomy a.parentID b.parentID)
  · intro a b; exact lt_lex_iff _ _ _ _ _ (planeID_trichotomy a.parentID b.parentID)
  · intro a b; exact lt_lex_iff _ _ _ _ _ (cryostatID_trichotomy a.parentID b.parentID)
  · intro a b; exact lt_lex_iff _ _ _ _ _ (tpcsetID_trichotomy a.parentID b.parentID)

/-- C2: for each identifier type, exactly one of `a < b`, `a == b`, `b < a`
holds, and `a != b` is the boolean negation of `a == b`. -/
theorem C2_trichotomy_and_ne :
    (∀ a b : geo.CryostatID,
      exactlyOne (geo.CryostatID.lt a b) (geo.CryostatID.eq a b) (geo.CryostatID.lt b a) = true ∧
      geo.CryostatID.ne a b = !(geo.CryostatID.eq a b)) ∧
    (∀ a b : geo.OpDetID,
      exactlyOne (geo.OpDetID.lt a b) (geo.OpDetID.eq a b) (geo.OpDetID.lt b a) = true ∧
      geo.OpDetID.ne a b = !(geo.OpDetID.eq a b)) ∧
    (∀ a b : geo.TPCID,
      exactlyOne (geo.TPCID.lt a b) (geo.TPCID.eq a b) (geo.TPCID.lt b a) = true ∧
      geo.TPCID.ne a b = !(geo.TPCID.eq a b)) ∧
    (∀ a b : geo.PlaneID,
      exactlyOne (geo.PlaneID.lt a b) (geo.PlaneID.eq a b) (geo.PlaneID.lt b a) = true ∧
      geo.PlaneID.ne a b = !(geo.PlaneID.eq a b)) ∧
    (∀ a b : geo.WireID,
      exactlyOne (geo.WireID.lt a b) (geo.WireID.eq a b) (geo.WireID.lt b a) = true ∧
      geo.WireID.ne a b = !(geo.WireID.eq a b)) ∧
    (∀ a b : readout.TPCsetID,
      exactlyOne (readout.TPCsetID.lt a b) (readout.TPCsetID.eq a b) (readout.TPCsetID.lt b a) = true ∧
      readout.TPCsetID.ne a b = !(readout.TPCsetID.eq a b)) ∧
    (∀ a b : readout.ROPID,
      exactlyOne (readout.ROPID.lt a b) (readout.ROPID.eq a b) (readout.ROPID.lt b a) = true ∧
      readout.ROPID.ne a b = !(readout.ROPID.eq a b)) :=
  ⟨fun a b => ⟨cryostatID_trichotomy a b, rfl⟩,
   fun a b => ⟨opDetID_trichotomy a b, rfl⟩,
   fun a b => ⟨tpcID_trichotomy a b, rfl⟩,
   fun a b => ⟨planeID_trichotomy a b, rfl⟩,
   fun a b => ⟨wireID_trichotomy a b, rfl⟩,
   fun a b => ⟨tpcsetID_trichotomy a b, rfl⟩,
   fun a b => ⟨ropID_trichotomy a b, rfl⟩⟩

/-- C3: comparisons ignore the validity flags — overwriting either operand's
flag with any value leaves `==`, `!=` and `<` unchanged (noninterference of
validity in the comparison functions), for every identifier type. -/
theorem C3_comparisons_ignore_validity :
    (∀ (a b : geo.CryostatID) (va vb : Bool),
      geo.CryostatID.eq (a.setValidity va) (b.setValidity vb) = geo.CryostatID.eq a b ∧
      geo.CryostatID.ne (a.setValidity va) (b.setValidity vb) = geo.CryostatID.ne a b ∧
      geo.CryostatID.lt (a.setValidity va) (b.setValidity vb) = geo.CryostatID.lt a b) ∧
    (∀ (a b : geo.OpDetID) (va vb : Bool),
      geo.OpDetID.eq (a.setValidity va) (b.setValidity vb) = geo.OpDetID.eq a b ∧
      geo.OpDetID.ne (a.setValidity va) (b.setValidity vb) = geo.OpDetID.ne a b ∧
      geo.OpDetID.lt (a.setValidity va) (b.setValidity vb) = geo.OpDetID.lt a b) ∧
    (∀ (a b : geo.TPCID) (va vb : Bool),
      geo.TPCID.eq (a.setValidity va) (b.setValidity vb) = geo.TPCID.eq a b ∧
      geo.TPCID.ne (a.setValidity va) (b.setValidity vb) = geo.TPCID.ne a b ∧
      geo.TPCID.lt (a.setValidity va) (b.setValidity vb) = geo.TPCID.lt a b) ∧
    (∀ (a b : geo.PlaneID) (va vb : Bool),
      geo.PlaneID.eq (a.setValidity va) (b.setValidity vb) = geo.PlaneID.eq a b ∧
      geo.PlaneID.ne (a.setValidity va) (b.setValidity vb) = geo.PlaneID.ne a b ∧
      geo.PlaneID.lt (a.setValidity va) (b.setValidity vb) = geo.PlaneID.lt a b) ∧
    (∀ (a b : geo.WireID) (va vb : Bool),
      geo.WireID.eq (a.setValidity va) (b.setValidity vb) = geo.WireID.eq a b ∧
      geo.WireID.ne (a.setValidity va) (b.setValidity vb) = geo.WireID.ne a b ∧
      geo.WireID.lt (a.setValidity va) (b.setValidity vb) = geo.WireID.lt a b) ∧
    (∀ (a b : readout.TPCsetID) (va vb : Bool),
      readout.TPCsetID.eq (a.setValidity va) (b.setValidity vb) = readout.TPCsetID.eq a b ∧
      readout.TPCsetID.ne (a.setValidity va) (b.setValidity vb) = readout.TPCsetID.ne a b ∧
      readout.TPCsetID.lt (a.setValidity va) (b.setValidity vb) = readout.TPCsetID.lt a b) ∧
    (∀ (a b : readout.ROPID) (va vb : Bool),
      readout.ROPID.eq (a.setValidity va) (b.setValidity vb) = readout.ROPID.eq a b ∧
      readout.ROPID.ne (a.setValidity va) (b.setValidity vb) = readout.ROPID.ne a b ∧
      readout.ROPID.lt (a.setValidity va) (b.setValidity vb) = readout.ROPID.lt a b) :=
  ⟨fun _ _ _ _ => ⟨rfl, rfl, rfl⟩, fun _ _ _ _ => ⟨rfl, rfl, rfl⟩,
   fun _ _ _ _ => ⟨rfl, rfl, rfl⟩, fun _ _ _ _ => ⟨rfl, rfl, rfl⟩,
   fun _ _ _ _ => ⟨rfl, rfl, rfl⟩, fun _ _ _ _ => ⟨rfl, rfl, rfl⟩,
   fun _ _ _ _ => ⟨rfl, rfl, rfl⟩⟩

/-- C4 counterexample: the claim says `ID(parent, localIndex)` is valid
regardless of the parent's validity, but `TPCID(CryostatID(), 0)` — a TPC ID
built on a default-constructed (invalid) cryostat ID — is invalid. -/
theorem C4_counterexample :
    (geo.TPCID.ofParent geo.CryostatID.invalid 0).isValid = false := by decide

/-- C4 amended: the two-argument constructor `ID(parent, localIndex)` copies
the parent's validity flag: the result is valid exactly when the supplied
parent is. -/
theorem C4_parent_ctor_copies_validity :
    (∀ (p : geo.CryostatID) (i : Nat), (geo.OpDetID.ofParent p i).isValid = p.isValid) ∧
    (∀ (p : geo.CryostatID) (i : Nat), (geo.TPCID.ofParent p i).isValid = p.isValid) ∧
    (∀ (p : geo.TPCID) (i : Nat), (geo.PlaneID.ofParent p i).isValid = p.isValid) ∧
    (∀ (p : geo.PlaneID) (i : Nat), (geo.WireID.ofParent p i).isValid = p.isValid) ∧
    (∀ (p : geo.CryostatID) (i : Nat), (readout.TPCsetID.ofParent p i).isValid = p.isValid) ∧
    (∀ (p : readout.TPCsetID) (i : Nat), (readout.ROPID.ofParent p i).isValid = p.isValid) :=
  ⟨fun _ _ => rfl, fun _ _ => rfl, fun _ _ => rfl,
   fun _ _ => rfl, fun _ _ => rfl, fun _ _ => rfl⟩

/-- C5: every flat (all-indices) constructor yields a valid identifier whose
`getIndex<K>` returns the K-th supplied index; in particular
`WireID(0, 0, 0, 0)` is valid. -/
theorem C5_flat_ctor_valid_and_getIndex :
    (∀ c t p w : Nat,
      (geo.WireID.ofIndices c t p w).isValid = true ∧
      (geo.WireID.ofIndices c t p w).getIndex0 = c ∧
      (geo.WireID.ofIndices c t p w).getIndex1 = t ∧
      (geo.WireID.ofIndices c t p w).getIndex2 = p ∧
      (geo.WireID.ofIndices c t p w).getIndex3 = w) ∧
    (geo.WireID.ofIndices 0 0 0 0).isValid = true ∧
    (∀ c : Nat,
      (geo.CryostatID.ofIndex c).isValid = true ∧
      (geo.CryostatID.ofIndex c).getIndex0 = c) ∧
    (∀ c o : Nat,
      (geo.OpDetID.ofIndices c o).isValid = true ∧
      (geo.OpDetID.ofIndices c o).getIndex0 = c ∧
      (geo.OpDetID.ofIndices c o).getIndex1 = o) ∧
    (∀ c t : Nat,
      (geo.TPCID.ofIndices c t).isValid = true ∧
      (geo.TPCID.ofIndices c t).getIndex0 = c ∧
      (geo.TPCID.ofIndices c t).getIndex1 = t) ∧
    (∀ c t p : Nat,
      (geo.PlaneID.ofIndices c t p).isValid = true ∧
      (geo.PlaneID.ofIndices c t p).getIndex0 = c ∧
      (geo.PlaneID.ofIndices c t p).getIndex1 = t ∧
      (geo.PlaneID.ofIndices c t p).getIndex2 = p) ∧
    (∀ c s : Nat,
      (readout.TPCsetID.ofIndices c s).isValid = true ∧
      (readout.TPCsetID.ofIndices c s).getIndex0 = c ∧
      (readout.TPCsetID.ofIndices c s).getIndex1 = s) ∧
    (∀ c s r : Nat,
      (readout.ROPID.ofIndices c s r).isValid = true ∧
      (readout.ROPID.ofIndices c s r).getIndex0 = c ∧
      (readout.ROPID.ofIndices c s r).getIndex1 = s ∧
      (readout.ROPID.ofIndices c s r).getIndex2 = r) :=
  ⟨fun _ _ _ _ => ⟨rfl, rfl, rfl, rfl, rfl⟩, rfl,
   fun _ => ⟨rfl, rfl⟩,
   fun _ _ => ⟨rfl, rfl, rfl⟩,
   fun _ _ => ⟨rfl, rfl, rfl⟩,
   fun _ _ _ => ⟨rfl, rfl, rfl, rfl⟩,
   fun _ _ => ⟨rfl, rfl, rfl⟩,
   fun _ _ _ => ⟨rfl, rfl, rfl, rfl⟩⟩

/-- C6: a default-constructed identifier of every type is invalid, its
`deepestIndex()` is its level's sentinel `getInvalidID()` (the maximum of the
level's index type), and every ancestor index is its own level's sentinel. -/
theorem C6_default_is_invalid_sentinel :
    (geo.CryostatID.invalid.isValid = false ∧
      geo.CryostatID.invalid.deepestIndex = geo.CryostatID.getInvalidID) ∧
    (geo.OpDetID.invalid.isValid = false ∧
      geo.OpDetID.invalid.deepestIndex = geo.OpDetID.getInvalidID ∧
      geo.OpDetID.invalid.getIndex0 = geo.CryostatID.getInvalidID) ∧
    (geo.TPCID.invalid.isValid = false ∧
      geo.TPCID.invalid.deepestIndex = geo.TPCID.getInvalidID ∧
      geo.TPCID.invalid.getIndex0 = geo.CryostatID.getInvalidID) ∧
    (geo.PlaneID.invalid.isValid = false ∧
      geo.PlaneID.invalid.deepestIndex = geo.PlaneID.getInvalidID ∧
      geo.PlaneID.invalid.getIndex0 = geo.CryostatID.getInvalidID ∧
      geo.PlaneID.invalid.getIndex1 = geo.TPCID.getInvalidID) ∧
    (geo.WireID.invalid.isValid = false ∧
      geo.WireID.invalid.deepestIndex = geo.WireID.getInvalidID ∧
      geo.WireID.invalid.getIndex0 = geo.CryostatID.getInvalidID ∧
      geo.WireID.invalid.getIndex1 = geo.TPCID.getInvalidID ∧
      geo.WireID.invalid.getIndex2 = geo.PlaneID.getInvalidID) ∧
    (readout.TPCsetID.invalid.isValid = false ∧
      readout.TPCsetID.invalid.deepestIndex = readout.TPCsetID.getInvalidID ∧
      readout.TPCsetID.invalid.getIndex0 = geo.CryostatID.getInvalidID) ∧
    (readout.ROPID.invalid.isValid = false ∧
      readout.ROPID.invalid.deepestIndex = readout.ROPID.getInvalidID ∧
      readout.ROPID.invalid.getIndex0 = geo.CryostatID.getInvalidID ∧
      readout.ROPID.invalid.getIndex1 = readout.TPCsetID.getInvalidID) ∧
    geo.CryostatID.getInvalidID = 2 ^ 32 - 1 ∧
    readout.TPCsetID.getInvalidID = 2 ^ 16 - 1 :=
  ⟨⟨rfl, rfl⟩, ⟨rfl, rfl, rfl⟩, ⟨rfl, rfl, rfl⟩, ⟨rfl, rfl, rfl, rfl⟩,
   ⟨rfl, rfl, rfl, rfl, rfl⟩, ⟨rfl, rfl, rfl⟩, ⟨rfl, rfl, rfl, rfl⟩, rfl, rfl⟩

/-- C7 counterexample: the claim asserts
`WireIDIntersection{y:1.0} < WireIDIntersection{y:5.0}` is true, but the
operator is `|a.y| > |b.y|`, and `|1| > |5|` is false. -/
theorem C7_counterexample :
    geo.WireIDIntersection.lt ⟨1, 0, 0⟩ ⟨5, 0, 0⟩ = false := by decide

/-- C7 amended: `a < b` holds iff `|a.y| > |b.y|` (sorting by decreasing
absolute y); hence `{y:5} < {y:1}` is true, `{y:1} < {y:5}` is false, and for
y values `5` and `-5` neither record is less than the other. -/
theorem C7_intersection_ordering :
    (∀ a b : geo.WireIDIntersection,
      geo.WireIDIntersection.lt a b = true ↔ |a.y| > |b.y|) ∧
    geo.WireIDIntersection.lt ⟨5, 0, 0⟩ ⟨1, 0, 0⟩ = true ∧
    geo.WireIDIntersection.lt ⟨1, 0, 0⟩ ⟨5, 0, 0⟩ = false ∧
    geo.WireIDIntersection.lt ⟨5, 0, 0⟩ ⟨-5, 0, 0⟩ = false ∧
    geo.WireIDIntersection.lt ⟨-5, 0, 0⟩ ⟨5, 0, 0⟩ = false :=
  ⟨fun a b => by simp [geo.WireIDIntersection.lt], by decide, by decide, by decide, by decide⟩

/-- C8: rendering is ancestor-first with the fixed per-level tags
`C`, `O`, `T`, `P`, `W`, `S`, `R`, each level formatted as `<Tag>:<index>`
separated by single spaces; in particular `WireID(1,15,32,27)` renders as
`"C:1 T:15 P:32 W:27"`. -/
theorem C8_toString_format :
    (∀ a : geo.CryostatID, a.toString = "C:" ++ Nat.repr a.Cryostat) ∧
    (∀ a : geo.OpDetID, a.toString = a.parentID.toString ++ " O:" ++ Nat.repr a.OpDet) ∧
    (∀ a : geo.TPCID, a.toString = a.parentID.toString ++ " T:" ++ Nat.repr a.TPC) ∧
    (∀ a : geo.PlaneID, a.toString = a.parentID.toString ++ " P:" ++ Nat.repr a.Plane) ∧
    (∀ a : geo.WireID, a.toString = a.parentID.toString ++ " W:" ++ Nat.repr a.Wire) ∧
    (∀ a : readout.TPCsetID, a.toString = a.parentID.toString ++ " S:" ++ Nat.repr a.TPCset) ∧
    (∀ a : readout.ROPID, a.toString = a.parentID.toString ++ " R:" ++ Nat.repr a.ROP) ∧
    (geo.WireID.ofIndices 1 15 32 27).toString = "C:1 T:15 P:32 W:27" :=
  ⟨fun _ => rfl, fun _ => rfl, fun _ => rfl, fun _ => rfl, fun _ => rfl,
   fun _ => rfl, fun _ => rfl, by decide⟩

/-- C9: `SignalTypeName` returns `"induction"` for `kInduction`,
`"collection"` for `kCollection`, `"unknown"` for `kMysteryType`, and for any
other underlying value fails with an error whose message carries the
offending numeric value (it is never a silently returned default name). -/
theorem C9_SignalTypeName_total :
    geo.SignalTypeName geo.kInduction = Except.ok "induction" ∧
    geo.SignalTypeName geo.kCollection = Except.ok "collection" ∧
    geo.SignalTypeName geo.kMysteryType = Except.ok "unknown" ∧
    (∀ v : Int, v = geo.kInduction ∨ v = geo.kCollection ∨ v = geo.kMysteryType ∨
      geo.SignalTypeName v =
        Except.error ("geo::SignalTypeName(): unexpected signal type #" ++ Int.repr v)) := by
  refine ⟨rfl, rfl, rfl, ?_⟩
  intro v
  by_cases h0 : v = geo.kInduction
  · exact Or.inl h0
  by_cases h1 : v = geo.kCollection
  · exact Or.inr (Or.inl h1)
  by_cases h2 : v = geo.kMysteryType
  · exact Or.inr (Or.inr (Or.inl h2))
  refine Or.inr (Or.inr (Or.inr ?_))
  simp [geo.SignalTypeName, h0, h1, h2]

/-- C10: `TPCID::next()` always yields a valid TPC ID with the same cryostat
index and the TPC index incremented modulo `2^32`; applied to a
default-constructed TPC ID it yields a valid ID with TPC index `0`, the
sentinel having wrapped around. -/
theorem C10_next_wraps :
    (∀ a : geo.TPCID,
      a.next.isValid = true ∧
      a.next.cryostat.Cryostat = a.cryostat.Cryostat ∧
      a.next.TPC = (a.TPC + 1) % 2 ^ 32) ∧
    geo.TPCID.invalid.next.isValid = true ∧
    geo.TPCID.invalid.next.TPC = 0 :=
  ⟨fun _ => ⟨rfl, rfl, rfl⟩, rfl, by decide⟩
